import Mathlib

/-!
Verification of the slotPaste trigger-to-action pipeline against its Rust
source (crates/clip-agent).  Each definition below is a shallow embedding of
one function of the source; ambient inputs of the Rust code (the clock
`Instant::now()`, the clipboard contents, OS permission state) are passed as
explicit parameters, and side effects (spawned timers, outbound UDP sends,
clipboard/paste invocations) are returned as explicit values.
-/

namespace SlotPaste

/-- Slot identifiers: J, K, L, U, I, O (keys.rs `SlotId`). -/
inductive SlotId
  | J
  | K
  | L
  | U
  | I
  | O
deriving DecidableEq, Repr

/-- Human-readable label (keys.rs `SlotId::label`). -/
def SlotId.label : SlotId → String
  | .J => "J"
  | .K => "K"
  | .L => "L"
  | .U => "U"
  | .I => "I"
  | .O => "O"

/-- Logical key from a keyboard event (keys.rs `Key`). -/
inductive Key
  | Slot (s : SlotId)
  | Escape
  | C
  | V
  | Other (code : Nat)
deriving DecidableEq, Repr

/-- macOS virtual key codes (keys.rs). -/
def VK_ANSI_C : Int := 8
def VK_ANSI_V : Int := 9
def VK_ANSI_J : Int := 38
def VK_ANSI_K : Int := 40
def VK_ANSI_L : Int := 37
def VK_ANSI_U : Int := 32
def VK_ANSI_I : Int := 34
def VK_ANSI_O : Int := 31
def VK_ESCAPE : Int := 53

/-- keys.rs `keycode_to_key`: total translation of a raw keycode.
The `Other` arm mirrors the Rust `keycode as u16` cast. -/
def keycode_to_key (keycode : Int) : Key :=
  if keycode = VK_ANSI_J then .Slot .J
  else if keycode = VK_ANSI_K then .Slot .K
  else if keycode = VK_ANSI_L then .Slot .L
  else if keycode = VK_ANSI_U then .Slot .U
  else if keycode = VK_ANSI_I then .Slot .I
  else if keycode = VK_ANSI_O then .Slot .O
  else if keycode = VK_ESCAPE then .Escape
  else if keycode = VK_ANSI_C then .C
  else if keycode = VK_ANSI_V then .V
  else .Other (keycode.toNat % 2 ^ 16)

/-- state_machine.rs `Event`.  `Timeout` carries the token it was armed with. -/
inductive Event
  | KeyDown (k : Key) (flags : Nat)
  | KeyUp (k : Key) (flags : Nat)
  | FlagsChanged (flags : Nat)
  | CmdVTrigger
  | Timeout (token : Nat)
  | Quit
deriving DecidableEq, Repr

/-- state_machine.rs: `SLOT_SELECT_WINDOW = 800 ms` (instants are in ms). -/
def SLOT_SELECT_WINDOW : Nat := 800

/-- state_machine.rs / event_tap.rs: `CMD_MASK = 1 << 20`. -/
def CMD_MASK : Nat := 2 ^ 20

/-- Published mode values (state_machine.rs constants). -/
def MODE_IDLE : Nat := 0
def MODE_COPY_ARMED : Nat := 1
def MODE_COPY_SELECTING : Nat := 2
def MODE_PASTE_SELECTING : Nat := 3

/-- state_machine.rs `State`. -/
inductive State
  | Idle
  | CopyArmed (deadline token : Nat)
  | CopySelecting (deadline token : Nat)
  | PasteSelecting (deadline token : Nat)
deriving DecidableEq, Repr

/-- The token carried by a (non-Idle) state. -/
def State.tokenOf : State → Option Nat
  | .Idle => none
  | .CopyArmed _ token => some token
  | .CopySelecting _ token => some token
  | .PasteSelecting _ token => some token

/-- The token carried by an event.  In the Event enum of state_machine.rs the
only token-carrying events are timeouts. -/
def Event.carriedToken : Event → Option Nat
  | .Timeout t => some t
  | _ => none

/-- state_machine.rs `SlotStorage`: in-memory slot map.  The optional SQLite
write-through never affects `get` (the in-memory value wins), so the map is
the whole observable state. -/
structure SlotStorage where
  slots : SlotId → Option String

def SlotStorage.new : SlotStorage := ⟨fun _ => none⟩

/-- `SlotStorage::save`: overwrite the entry (HashMap::insert). -/
def SlotStorage.save (st : SlotStorage) (slot : SlotId) (content : String) : SlotStorage :=
  ⟨fun s => if slot = s then some content else st.slots s⟩

/-- `SlotStorage::get`. -/
def SlotStorage.get (st : SlotStorage) (slot : SlotId) : Option String :=
  st.slots slot

/-- `SlotStorage::is_empty`: `get(slot).map(|s| s.is_empty()).unwrap_or(true)`. -/
def SlotStorage.is_empty (st : SlotStorage) (slot : SlotId) : Bool :=
  ((st.get slot).map (fun s => s == "")).getD true

/-- Outbound transport messages (udp.rs `send_show` / `send_hide`).
`send_show` serializes mode/token/timeout_ms plus a fixed anchor field;
`send_hide` serializes the token. -/
inductive Send
  | show (mode token : String) (timeout_ms : Nat)
  | hide (token : String)
deriving DecidableEq, Repr

/-- udp.rs `send_show` (best-effort UDP to the UI port): the message payload. -/
def send_show (mode token : String) (timeout_ms : Nat) : Send :=
  .show mode token timeout_ms

/-- udp.rs `send_hide`: the message payload. -/
def send_hide (token : String) : Send :=
  .hide token

/-- Invocations of the clipboard bridge made by the state machine. -/
inductive ClipAction
  | pasteFromSlot (content : String)
deriving DecidableEq, Repr

/-- state_machine.rs `save_slot_from_clipboard`: reads the clipboard with
retry and saves the text into the slot; no-op when the clipboard has no text.
`clip` is the value `read_text_with_retry` would return. -/
def save_slot_from_clipboard (slots : SlotStorage) (slot : SlotId) (clip : Option String) :
    SlotStorage :=
  match clip with
  | some content => slots.save slot content
  | none => slots

/-- state_machine.rs `handle_idle`.  Returns (state, next_token, spawned
timeout timers as (deadline, token) pairs).  `now` is `Instant::now()`.
The source contains no call to udp::send_show here or anywhere. -/
def handle_idle (event : Event) (next_token : Nat) (now : Nat) :
    State × Nat × List (Nat × Nat) :=
  match event with
  | .KeyDown .C flags =>
    if (flags &&& CMD_MASK) ≠ 0 then
      let token := next_token + 1
      let deadline := now + SLOT_SELECT_WINDOW
      (.CopyArmed deadline token, token, [(deadline, token)])
    else (.Idle, next_token, [])
  | .CmdVTrigger =>
    let token := next_token + 1
    let deadline := now + SLOT_SELECT_WINDOW
    (.PasteSelecting deadline token, token, [(deadline, token)])
  | .KeyDown .V flags =>
    if (flags &&& CMD_MASK) ≠ 0 then
      let token := next_token + 1
      let deadline := now + SLOT_SELECT_WINDOW
      (.PasteSelecting deadline token, token, [(deadline, token)])
    else (.Idle, next_token, [])
  | _ => (.Idle, next_token, [])

/-- state_machine.rs `handle_copy_armed`.  `cmd_down` is the `prev_cmd_down`
the run loop passes in; `remaining.is_zero()` is `deadline ≤ now`.
Rust guard patterns (`Timeout(t) if t == token`) become an `if` in the arm:
a non-matching timeout falls through to the final wildcard arm, which keeps
the state; both translations keep the state for a stale token. -/
def handle_copy_armed (event : Event) (deadline token : Nat) (cmd_down : Bool)
    (slots : SlotStorage) (now : Nat) (clip : Option String) : State × SlotStorage :=
  match event with
  | .Timeout t =>
    if t = token then (.Idle, slots) else (.CopyArmed deadline token, slots)
  | .KeyDown .Escape _ => (.Idle, slots)
  | .KeyDown key _ =>
    if !cmd_down then
      if deadline ≤ now then (.Idle, slots)
      else
        match key with
        | .Slot slot => (.Idle, save_slot_from_clipboard slots slot clip)
        | .Escape => (.Idle, slots)
        | .Other _ => (.Idle, slots)
        | .C => (.Idle, slots)
        | .V => (.Idle, slots)
    else
      match key with
      | .Slot _ => (.CopyArmed deadline token, slots)
      | .Escape => (.Idle, slots)
      | .C => (.CopyArmed deadline token, slots)
      | .V => (.CopyArmed deadline token, slots)
      | .Other _ => (.Idle, slots)
  | .FlagsChanged flags =>
    let cmd_now := (flags &&& CMD_MASK) != 0
    if !cmd_now && cmd_down then
      if deadline ≤ now then (.Idle, slots)
      else (.CopySelecting deadline token, slots)
    else (.CopyArmed deadline token, slots)
  | _ => (.CopyArmed deadline token, slots)

/-- state_machine.rs `handle_copy_selecting`. -/
def handle_copy_selecting (event : Event) (deadline token : Nat)
    (slots : SlotStorage) (now : Nat) (clip : Option String) : State × SlotStorage :=
  match event with
  | .Timeout t =>
    if t = token then (.Idle, slots) else (.CopySelecting deadline token, slots)
  | .KeyDown .Escape _ => (.Idle, slots)
  | .KeyDown (.Slot slot) _ =>
    if now < deadline then (.Idle, save_slot_from_clipboard slots slot clip)
    else (.Idle, slots)
  | .KeyDown _ _ => (.Idle, slots)
  | _ => (.CopySelecting deadline token, slots)

/-- state_machine.rs `handle_paste_selecting`.  Returns the new state and the
clipboard-bridge invocations (`paste_from_slot`) performed. -/
def handle_paste_selecting (event : Event) (deadline token : Nat)
    (slots : SlotStorage) (now : Nat) : State × List ClipAction :=
  match event with
  | .Timeout t =>
    if t = token then (.Idle, []) else (.PasteSelecting deadline token, [])
  | .KeyDown .Escape _ => (.Idle, [])
  | .KeyDown (.Slot slot) _ =>
    if now < deadline then
      if slots.is_empty slot then (.Idle, [])
      else
        match slots.get slot with
        | some content => (.Idle, [.pasteFromSlot content])
        | none => (.Idle, [])
    else (.Idle, [])
  | .KeyDown _ _ => (.Idle, [])
  | _ => (.PasteSelecting deadline token, [])

/-- One iteration of the state machine's run loop (state_machine.rs `run`),
made explicit: all observable effects of processing one event. -/
structure StepResult where
  state : State
  slots : SlotStorage
  next_token : Nat
  cmd_down : Bool
  timers : List (Nat × Nat)
  sends : List Send
  clips : List ClipAction
  quit : Bool

/-- The body of the `run` loop in state_machine.rs for one received event:
update `cmd_down` on FlagsChanged, stop on Quit, otherwise dispatch on the
current state (the dispatched handler receives `prev_cmd_down`).  The run
loop and all four handlers contain no call to udp::send_show or
udp::send_hide, so `sends` is empty on every path. -/
def step (st : State) (slots : SlotStorage) (next_token : Nat) (cmd_down : Bool)
    (event : Event) (now : Nat) (clip : Option String) : StepResult :=
  let prev_cmd_down := cmd_down
  let cmd_down := match event with
    | .FlagsChanged flags => (flags &&& CMD_MASK) != 0
    | _ => cmd_down
  match event with
  | .Quit => ⟨st, slots, next_token, cmd_down, [], [], [], true⟩
  | _ =>
    match st with
    | .Idle =>
      let r := handle_idle event next_token now
      ⟨r.1, slots, r.2.1, cmd_down, r.2.2, [], [], false⟩
    | .CopyArmed deadline token =>
      let r := handle_copy_armed event deadline token prev_cmd_down slots now clip
      ⟨r.1, r.2, next_token, cmd_down, [], [], [], false⟩
    | .CopySelecting deadline token =>
      let r := handle_copy_selecting event deadline token slots now clip
      ⟨r.1, r.2, next_token, cmd_down, [], [], [], false⟩
    | .PasteSelecting deadline token =>
      let r := handle_paste_selecting event deadline token slots now
      ⟨r.1, slots, next_token, cmd_down, [], [], r.2, false⟩

/-! ### Chooser transport inbound listener (udp.rs) -/

/-- A decoded JSON value, as serde_json would produce it for one datagram
line.  Numbers are modelled as integers (the fields the listener reads are
integers; `as_u64` fails on anything else). -/
inductive Json
  | null
  | bool (b : Bool)
  | num (n : Int)
  | str (s : String)
  | arr (xs : List Json)
  | obj (fields : List (String × Json))

/-- serde_json `Value::get(key)`: field of an object, else None. -/
def Json.get (j : Json) (key : String) : Option Json :=
  match j with
  | .obj fields => fields.lookup key
  | _ => none

/-- serde_json `Value::as_str`. -/
def Json.as_str : Json → Option String
  | .str s => some s
  | _ => none

/-- serde_json `Value::as_u64`: Some iff the number is a non-negative
integer representable as u64. -/
def Json.as_u64 : Json → Option Nat
  | .num n => if 0 ≤ n ∧ n < 2 ^ 64 then some n.toNat else none
  | _ => none

/-- The events udp.rs `parse_response` constructs (`Event::ChooserChosen` /
`Event::ChooserCancel` in its text; those variants do not exist in the
state_machine.rs `Event` enum, so they are modelled as their own type). -/
inductive UdpEvent
  | ChooserChosen (token : String) (slot_num : Nat)
  | ChooserCancel (token : String) (reason : String)
deriving DecidableEq, Repr

/-- udp.rs `parse_response` on one datagram line.  The input is the result
of `serde_json::from_str(line)` (`none` = invalid JSON).  The `as u8` cast
of the slot number is `% 256`; the range check `(1..=6).contains(&slot)`
runs on the cast value. -/
def parse_response (line : Option Json) : Option UdpEvent :=
  match line with
  | none => none
  | some v =>
    match (v.get "type").bind Json.as_str with
    | none => none
    | some typ =>
      match (v.get "token").bind Json.as_str with
      | none => none
      | some token =>
        if typ = "chosen" then
          match (v.get "slot").bind Json.as_u64 with
          | none => none
          | some slot64 =>
            let slot := slot64 % 256
            if 1 ≤ slot ∧ slot ≤ 6 then some (.ChooserChosen token slot) else none
        else if typ = "cancel" then
          let reason := (((v.get "reason").bind Json.as_str).getD "timeout")
          some (.ChooserCancel token reason)
        else none

/-! ### Input capture gate (macos/event_tap.rs) -/

/-- The CoreGraphics event types the tap observes. -/
inductive CGEventType
  | KeyDown
  | KeyUp
  | FlagsChanged
  | TapDisabledByTimeout
  | TapDisabledByUserInput
  | OtherEvent
deriving DecidableEq, Repr

def Key.isSlot : Key → Bool
  | .Slot _ => true
  | _ => false

/-- event_tap.rs `convert_event`. -/
def convert_event (event_type : CGEventType) (keycode : Int) (flags : Nat) : Option Event :=
  let key := keycode_to_key keycode
  match event_type with
  | .KeyDown => some (.KeyDown key flags)
  | .KeyUp => some (.KeyUp key flags)
  | .FlagsChanged => some (.FlagsChanged flags)
  | _ => none

/-- event_tap.rs `convert_event_and_swallow`: (event to forward if any,
swallow flag).  Early `return`s of the Rust become nested alternatives; the
trailing "if let Some(ev) = convert_event … (ev, false)" pass-through arms
are kept verbatim. -/
def convert_event_and_swallow (event_type : CGEventType) (keycode : Int)
    (flags : Nat) (mode : Nat) : Option (Option Event × Bool) :=
  if event_type = .TapDisabledByTimeout then none
  else if event_type = .TapDisabledByUserInput then none
  else
    let key := keycode_to_key keycode
    match event_type with
    | .KeyDown =>
      if mode = MODE_IDLE ∧ key = .V ∧ (flags &&& CMD_MASK) ≠ 0 then
        some (some .CmdVTrigger, true)
      else if (mode = MODE_COPY_SELECTING ∨ mode = MODE_PASTE_SELECTING) ∧
              (key.isSlot ∨ key = .Escape) then
        match convert_event .KeyDown keycode flags with
        | some ev => some (some ev, true)
        | none =>
          match convert_event .KeyDown keycode flags with
          | some ev => some (some ev, false)
          | none => none
      else
        match convert_event .KeyDown keycode flags with
        | some ev => some (some ev, false)
        | none => none
    | .KeyUp =>
      if mode = MODE_PASTE_SELECTING ∧ key = .V ∧ (flags &&& CMD_MASK) ≠ 0 then
        some (none, true)
      else if (mode = MODE_COPY_SELECTING ∨ mode = MODE_PASTE_SELECTING) ∧
              (key.isSlot ∨ key = .Escape) then
        some (none, true)
      else
        match convert_event .KeyUp keycode flags with
        | some ev => some (some ev, false)
        | none => none
    | .FlagsChanged =>
      match convert_event .FlagsChanged keycode flags with
      | some ev => some (some ev, false)
      | none => none
    | _ => none

/-! ### Agent startup (main.rs `run_macos`, event_tap.rs
`run_event_tap_with_sender`) -/

/-- The observable startup steps of main.rs `run_macos`, in program order. -/
inductive StartupAction
  | initPersistence
  | startListener
  | setCtrlcHandler
  | spawnStateMachine
  | runEventTap
deriving DecidableEq, Repr

/-- main.rs `run_macos` control flow.  `perm` is the result of
`has_accessibility_permission()` (the ambient OS state); `tapOk` whether the
CGEventTap is created successfully.  The permission check is the first
statement; on failure the function returns the error before any other step
(persistence, listener thread, state-machine thread, event tap) runs. -/
def run_macos (perm : Bool) (tapOk : Bool) : List StartupAction × Except String Unit :=
  if !perm then
    ([], .error "Accessibility permission not granted. Run `clip doctor` to open System Settings.")
  else
    ([.initPersistence, .startListener, .setCtrlcHandler, .spawnStateMachine, .runEventTap],
     if tapOk then .ok () else .error "Failed to create CGEventTap")

/-- The observable steps of event_tap.rs `run_event_tap_with_sender`. -/
inductive TapAction
  | checkPermission
  | createEventTap
deriving DecidableEq, Repr

/-- event_tap.rs `run_event_tap_with_sender` control flow: it re-checks the
permission and errors out before the tap is created; `createEventTap` is
recorded only when the tap actually comes into existence. -/
def run_event_tap_with_sender (perm : Bool) (tapCreateOk : Bool) :
    List TapAction × Except String Unit :=
  if !perm then
    ([.checkPermission],
     .error "Accessibility permission not granted. Run `clip doctor` to open System Settings.")
  else if tapCreateOk then ([.checkPermission, .createEventTap], .ok ())
  else ([.checkPermission], .error "Failed to create CGEventTap")

/-! ### Clipboard bridge (macos/clipboard.rs, macos/paste.rs) -/

/-- clipboard.rs `read_text`: current clipboard as text; None if the
clipboard is non-text/unavailable (`raw = none`) or trims to empty. -/
def read_text (raw : Option String) : Option String :=
  match raw with
  | none => none
  | some contents =>
    let trimmed := contents.trim
    if trimmed = "" then none else some trimmed

/-- The clipboard-visible effects of paste.rs `paste_from_slot`, in order. -/
inductive PasteAction
  | writeClipboard (s : String)
  | postCmdV
  | restoreWrite (s : String)
deriving DecidableEq, Repr

/-- paste.rs `paste_from_slot`: backup := read_text(); write the slot text
(on failure: warn and return); post the Cmd+V sequence (on failure: warn and
return, so no restore thread is spawned); after the delay the spawned thread
writes the backup back only when the backup was Some.  `raw` is the pre-call
clipboard, `writeOk`/`postOk` whether the clipboard write and the event post
succeed; a failed write has no clipboard effect. -/
def paste_from_slot (slot_text : String) (raw : Option String)
    (writeOk postOk : Bool) : List PasteAction :=
  let backup := read_text raw
  if !writeOk then []
  else
    [.writeClipboard slot_text] ++
      (if !postOk then []
       else [.postCmdV] ++
         (match backup with
          | some prev => [.restoreWrite prev]
          | none => []))

/-- Clipboard contents after a list of paste actions. -/
def applyPasteAction (clip : Option String) : PasteAction → Option String
  | .writeClipboard s => some s
  | .restoreWrite s => some s
  | .postCmdV => clip

def finalClipboard (clip : Option String) (tr : List PasteAction) : Option String :=
  tr.foldl applyPasteAction clip

/-! ### Slot-store histories (for the save/get/is_empty contract) -/

/-- A storage built by replaying a history of `save` calls on a fresh store. -/
def buildStorage (ops : List (SlotId × String)) : SlotStorage :=
  ops.foldl (fun st p => st.save p.1 p.2) SlotStorage.new

/-- The most recently saved text for a slot in a history, if any. -/
def lastSaved (ops : List (SlotId × String)) (slot : SlotId) : Option String :=
  ops.foldl (fun acc p => if p.1 = slot then some p.2 else acc) none

/-! ### Theorems -/

/-- Claim C1 (code_bug evidence): the state machine's run loop sends no
transport message on any path — in particular the arming transition out of
Idle on the save hotkey allocates a token and spawns the timeout but sends
no show message, contradicting the spec's "send show(mode=save, token)"
(udp.rs defines send_show/send_hide but neither has a call site, and the
chooser-reply events udp.rs constructs do not exist in the Event enum). -/
theorem C1_state_machine_sends_nothing :
    (∀ (st : State) (slots : SlotStorage) (nt : Nat) (cd : Bool) (e : Event)
        (now : Nat) (clip : Option String),
        (step st slots nt cd e now clip).sends = []) ∧
    (step .Idle SlotStorage.new 0 false (.KeyDown .C CMD_MASK) 0 none).state
        = .CopyArmed SLOT_SELECT_WINDOW 1 ∧
    (step .Idle SlotStorage.new 0 false (.KeyDown .C CMD_MASK) 0 none).timers
        = [(SLOT_SELECT_WINDOW, 1)] := by
  refine ⟨fun st slots nt cd e now clip => ?_, by decide, by decide⟩
  cases e <;> cases st <;> rfl

/-- Claim C2: in every non-Idle state, an event carrying a token different
from the current one (the token-carrying events of the state machine are
the stale timeouts) causes no state transition, no slot mutation, no
clipboard action and no outbound message. -/
theorem C2_stale_token_no_effect (st : State) (slots : SlotStorage) (nt : Nat) (cd : Bool)
    (e : Event) (now : Nat) (clip : Option String) (tok t : Nat)
    (hst : st.tokenOf = some tok) (he : e.carriedToken = some t) (hne : t ≠ tok) :
    step st slots nt cd e now clip = ⟨st, slots, nt, cd, [], [], [], false⟩ := by
  cases e with
  | Timeout t' =>
    obtain rfl : t' = t := by simpa [Event.carriedToken] using he
    cases st with
    | Idle => simp [State.tokenOf] at hst
    | CopyArmed d tk =>
      obtain rfl : tk = tok := by simpa [State.tokenOf] using hst
      simp [step, handle_copy_armed, hne]
    | CopySelecting d tk =>
      obtain rfl : tk = tok := by simpa [State.tokenOf] using hst
      simp [step, handle_copy_selecting, hne]
    | PasteSelecting d tk =>
      obtain rfl : tk = tok := by simpa [State.tokenOf] using hst
      simp [step, handle_paste_selecting, hne]
  | KeyDown k flags => simp [Event.carriedToken] at he
  | KeyUp k flags => simp [Event.carriedToken] at he
  | FlagsChanged flags => simp [Event.carriedToken] at he
  | CmdVTrigger => simp [Event.carriedToken] at he
  | Quit => simp [Event.carriedToken] at he

/-- Witness for C2: a stale timeout (token 3) in CopySelecting with current
token 5 changes nothing. -/
theorem C2_witness :
    step (.CopySelecting 10 5) SlotStorage.new 7 false (.Timeout 3) 0 none
      = ⟨.CopySelecting 10 5, SlotStorage.new, 7, false, [], [], [], false⟩ :=
  C2_stale_token_no_effect _ _ _ _ _ _ _ 5 3 rfl rfl (by decide)

/-- Counterexample to claim C3: the chosen message with slot 257 — a number
outside 1..6 — is NOT rejected: the `as u8` cast truncates 257 to 1 before
the range check, so the listener forwards ChooserChosen with slot 1. -/
theorem C3_counterexample :
    parse_response (some (.obj [("type", .str "chosen"), ("token", .str "x"),
        ("slot", .num 257)]))
      = some (.ChooserChosen "x" 1) ∧ ¬ (1 ≤ 257 ∧ 257 ≤ 6) := by
  exact ⟨by decide, by decide⟩

/-- Claim C3 (amended): for a chosen message whose slot field holds the
integer n, the listener forwards a chosen event iff n reduced modulo 256
(the `as u8` cast) lies in 1..6, and the forwarded slot number is that
reduced value; all other chosen messages are rejected at this boundary. -/
theorem C3_chosen_slot_mod256 (v : Json) (token : String) (n : Nat)
    (htyp : (v.get "type").bind Json.as_str = some "chosen")
    (htok : (v.get "token").bind Json.as_str = some token)
    (hslot : (v.get "slot").bind Json.as_u64 = some n) :
    parse_response (some v)
      = if 1 ≤ n % 256 ∧ n % 256 ≤ 6
        then some (.ChooserChosen token (n % 256)) else none := by
  simp [parse_response, htyp, htok, hslot]

/-- Witness for C3 (amended): slot 3 is forwarded as slot 3. -/
theorem C3_witness :
    parse_response (some (.obj [("type", .str "chosen"), ("token", .str "t"),
        ("slot", .num 3)]))
      = some (.ChooserChosen "t" 3) := by
  rw [C3_chosen_slot_mod256 (Json.obj [("type", .str "chosen"), ("token", .str "t"),
        ("slot", .num 3)]) "t" 3 rfl rfl rfl]
  decide

/-- Claim C7: the inbound listener drops (returns no event for) any line
that is not valid JSON or is missing a required field — type, token, or,
for chosen messages, slot — and a cancel message without a reason field is
forwarded as a cancel whose reason is "timeout". -/
theorem C7_listener_drops_malformed :
    (parse_response none = none) ∧
    (∀ v : Json, v.get "type" = none → parse_response (some v) = none) ∧
    (∀ v : Json, v.get "token" = none → parse_response (some v) = none) ∧
    (∀ v : Json, (v.get "type").bind Json.as_str = some "chosen" →
       v.get "slot" = none → parse_response (some v) = none) ∧
    (∀ (v : Json) (token : String),
       (v.get "type").bind Json.as_str = some "cancel" →
       (v.get "token").bind Json.as_str = some token →
       v.get "reason" = none →
       parse_response (some v) = some (.ChooserCancel token "timeout")) := by
  refine ⟨rfl, ?_, ?_, ?_, ?_⟩
  · intro v h
    simp [parse_response, h]
  · intro v h
    cases htyp : (v.get "type").bind Json.as_str with
    | none => simp [parse_response, htyp]
    | some typ => simp [parse_response, htyp, h]
  · intro v htyp hslot
    cases htok : (v.get "token").bind Json.as_str with
    | none => simp [parse_response, htyp, htok]
    | some tok => simp [parse_response, htyp, htok, hslot]
  · intro v token htyp htok hreason
    simp [parse_response, htyp, htok, hreason]

/-- Witness for C7: a cancel line with no reason field is forwarded with
reason "timeout". -/
theorem C7_witness :
    parse_response (some (.obj [("type", .str "cancel"), ("token", .str "t")]))
      = some (.ChooserCancel "t" "timeout") :=
  C7_listener_drops_malformed.2.2.2.2 _ "t" rfl rfl rfl

/-- Counterexample to claim C4: in Idle mode, the save-hotkey key-down
(Cmd held, keycode 8 = C) is NOT swallowed: the tap forwards the raw
KeyDown event with swallow = false, so the foreground application does
observe the keystroke. -/
theorem C4_counterexample :
    convert_event_and_swallow .KeyDown VK_ANSI_C CMD_MASK MODE_IDLE
      = some (some (.KeyDown .C CMD_MASK), false) := by
  decide

/-- Claim C4 (amended): in Idle mode the save-hotkey key-down with the
modifier held is passed through (not swallowed — the foreground application
observes it and performs the native copy) while the raw key event is
forwarded into the event stream, and that forwarded event is what arms the
save flow (CopyArmed with a fresh token and deadline) in the state
machine. -/
theorem C4_save_hotkey_passes_through (flags nt now : Nat)
    (h : flags &&& CMD_MASK ≠ 0) :
    convert_event_and_swallow .KeyDown VK_ANSI_C flags MODE_IDLE
      = some (some (.KeyDown .C flags), false) ∧
    handle_idle (.KeyDown .C flags) nt now
      = (.CopyArmed (now + SLOT_SELECT_WINDOW) (nt + 1), nt + 1,
         [(now + SLOT_SELECT_WINDOW, nt + 1)]) := by
  constructor
  · norm_num [convert_event_and_swallow, convert_event, keycode_to_key,
      VK_ANSI_C, VK_ANSI_V, VK_ANSI_J, VK_ANSI_K, VK_ANSI_L, VK_ANSI_U,
      VK_ANSI_I, VK_ANSI_O, VK_ESCAPE, MODE_IDLE, MODE_COPY_SELECTING,
      MODE_PASTE_SELECTING, Key.isSlot]
    exact ⟨by decide, by decide, fun hk => nomatch hk⟩
  · simp [handle_idle, h]

/-- Witness for C4 (amended), at flags = CMD_MASK. -/
theorem C4_witness :
    convert_event_and_swallow .KeyDown VK_ANSI_C CMD_MASK MODE_IDLE
      = some (some (.KeyDown .C CMD_MASK), false) ∧
    handle_idle (.KeyDown .C CMD_MASK) 0 0
      = (.CopyArmed (0 + SLOT_SELECT_WINDOW) (0 + 1), 0 + 1,
         [(0 + SLOT_SELECT_WINDOW, 0 + 1)]) :=
  C4_save_hotkey_passes_through CMD_MASK 0 0 (by decide)

/-- Helper: the slot read after replaying a history of saves is the most
recently saved value for that slot. -/
theorem foldl_save_get (ops : List (SlotId × String)) (st : SlotStorage) (slot : SlotId) :
    (ops.foldl (fun st p => st.save p.1 p.2) st).get slot
      = ops.foldl (fun acc p => if p.1 = slot then some p.2 else acc) (st.get slot) := by
  induction ops generalizing st with
  | nil => rfl
  | cons p ops ih =>
    simp only [List.foldl_cons]
    rw [ih]
    congr 1

/-- Claim C5: for every SlotId and text, `save` then `get` returns exactly
the saved text, and after any history of saves `is_empty` is true iff the
slot was never saved or its most recently saved text is empty. -/
theorem C5_save_get_is_empty :
    ∀ (ops : List (SlotId × String)) (slot : SlotId) (text : String),
      ((buildStorage ops).save slot text).get slot = some text ∧
      ((buildStorage ops).is_empty slot = true ↔
        lastSaved ops slot = none ∨ lastSaved ops slot = some "") := by
  intro ops slot text
  have h : (buildStorage ops).get slot = lastSaved ops slot :=
    foldl_save_get ops SlotStorage.new slot
  constructor
  · simp [SlotStorage.save, SlotStorage.get]
  · cases hls : lastSaved ops slot with
    | none => simp [SlotStorage.is_empty, h, hls]
    | some s => simp [SlotStorage.is_empty, h, hls]

/-- Witness for C5: saving "a" into slot J of a fresh store and reading it
back. -/
theorem C5_witness :
    ((buildStorage []).save .J "a").get .J = some "a" :=
  (C5_save_get_is_empty [] .J "a").1

/-- Claim C6: a paste chooser that resolves before its deadline to an empty
(or never saved) slot performs no clipboard-bridge invocation — hence no
clipboard write and no synthetic paste keystroke — and returns to Idle. -/
theorem C6_empty_slot_no_action (deadline token now : Nat) (slots : SlotStorage)
    (slot : SlotId) (flags : Nat)
    (hnow : now < deadline) (hempty : slots.is_empty slot = true) :
    handle_paste_selecting (.KeyDown (.Slot slot) flags) deadline token slots now
      = (.Idle, []) := by
  simp [handle_paste_selecting, hnow, hempty]

/-- Witness for C6: slot J of a fresh store, resolved at time 0 before
deadline 10. -/
theorem C6_witness :
    handle_paste_selecting (.KeyDown (.Slot .J) 0) 10 1 SlotStorage.new 0
      = (.Idle, []) :=
  C6_empty_slot_no_action 10 1 0 SlotStorage.new .J 0 (by decide) rfl

/-- Claim C8: without Accessibility permission, agent startup fails with the
actionable error before any startup step runs — no persistence init, no
listener thread, no state-machine thread, no event tap — and the capture
loop itself errors out before the event tap is created; the agent never
runs in a degraded capture mode. -/
theorem C8_fail_fast_no_permission :
    ∀ tapOk tapCreateOk : Bool,
      (run_macos false tapOk).1 = [] ∧
      (run_macos false tapOk).2
        = .error "Accessibility permission not granted. Run `clip doctor` to open System Settings." ∧
      (run_event_tap_with_sender false tapCreateOk).1 = [.checkPermission] ∧
      TapAction.createEventTap ∉ (run_event_tap_with_sender false tapCreateOk).1 := by
  intro tapOk tapCreateOk
  cases tapCreateOk <;> exact ⟨rfl, rfl, rfl, by decide⟩

/-- Witness for C8: with permission denied, startup performs no actions and
returns the actionable error. -/
theorem C8_witness :
    (run_macos false true).1 = [] ∧
    (run_macos false true).2
      = .error "Accessibility permission not granted. Run `clip doctor` to open System Settings." :=
  ⟨(C8_fail_fast_no_permission true true).1, (C8_fail_fast_no_permission true true).2.1⟩

/-- Claim C9: in CopyArmed, a slot key pressed while the modifier is still
held saves nothing and leaves the armed state (same deadline and token)
unchanged; Escape cancels to Idle even with the modifier held; and once the
modifier is released, a slot key pressed before the deadline saves the
clipboard into the slot and returns to Idle. -/
theorem C9_copy_armed_modifier_gating (deadline token now : Nat) (slots : SlotStorage)
    (s : SlotId) (flags : Nat) (clip : Option String) :
    (handle_copy_armed (.KeyDown (.Slot s) flags) deadline token true slots now clip
        = (.CopyArmed deadline token, slots)) ∧
    (∀ cd : Bool, handle_copy_armed (.KeyDown .Escape flags) deadline token cd slots now clip
        = (.Idle, slots)) ∧
    (now < deadline →
      handle_copy_armed (.KeyDown (.Slot s) flags) deadline token false slots now clip
        = (.Idle, save_slot_from_clipboard slots s clip)) := by
  refine ⟨?_, ?_, ?_⟩
  · simp [handle_copy_armed]
  · intro cd
    simp [handle_copy_armed]
  · intro hlt
    have hn : ¬ deadline ≤ now := by omega
    simp [handle_copy_armed, hn]

/-- Witness for C9: with the modifier held the armed state survives a slot
key; with it released the slot key saves the clipboard text. -/
theorem C9_witness :
    (handle_copy_armed (.KeyDown (.Slot .J) 0) 10 1 true SlotStorage.new 0 none
        = (.CopyArmed 10 1, SlotStorage.new)) ∧
    (handle_copy_armed (.KeyDown (.Slot .J) 0) 10 1 false SlotStorage.new 0 (some "hi")
        = (.Idle, SlotStorage.new.save .J "hi")) :=
  ⟨(C9_copy_armed_modifier_gating 10 1 0 SlotStorage.new .J 0 none).1,
   (C9_copy_armed_modifier_gating 10 1 0 SlotStorage.new .J 0 (some "hi")).2.2 (by decide)⟩

/-- Claim C10: paste_from_slot writes the slot text to the clipboard before
posting any synthetic key event; a restore write is scheduled only when the
pre-paste clipboard read produced (non-empty, trimmed) text; and when the
pre-paste clipboard was empty or non-text, no restore write occurs and the
slot text remains on the clipboard. -/
theorem C10_paste_order_and_restore (slot_text : String) (raw : Option String)
    (writeOk postOk : Bool) :
    (PasteAction.postCmdV ∈ paste_from_slot slot_text raw writeOk postOk →
       ∃ rest, paste_from_slot slot_text raw writeOk postOk
           = PasteAction.writeClipboard slot_text :: rest ∧ PasteAction.postCmdV ∈ rest) ∧
    (∀ s, PasteAction.restoreWrite s ∈ paste_from_slot slot_text raw writeOk postOk →
       read_text raw = some s) ∧
    (read_text raw = none →
       (∀ s, PasteAction.restoreWrite s ∉ paste_from_slot slot_text raw writeOk postOk) ∧
       (writeOk = true →
          finalClipboard raw (paste_from_slot slot_text raw writeOk postOk)
            = some slot_text)) := by
  refine ⟨?_, ?_, ?_⟩
  · intro hpost
    cases writeOk with
    | false => simp [paste_from_slot] at hpost
    | true =>
      cases postOk with
      | false => simp [paste_from_slot] at hpost
      | true =>
        cases hb : read_text raw with
        | none =>
          exact ⟨[.postCmdV], by simp [paste_from_slot, hb], by simp⟩
        | some prev =>
          exact ⟨[.postCmdV, .restoreWrite prev], by simp [paste_from_slot, hb], by simp⟩
  · intro s hs
    cases writeOk with
    | false => simp [paste_from_slot] at hs
    | true =>
      cases postOk with
      | false => simp [paste_from_slot] at hs
      | true =>
        cases hb : read_text raw with
        | none => simp [paste_from_slot, hb] at hs
        | some prev =>
          simp [paste_from_slot, hb] at hs
          rw [hs]
  · intro hnone
    constructor
    · intro s
      cases writeOk <;> cases postOk <;> simp [paste_from_slot, hnone]
    · intro hw
      subst hw
      cases postOk <;>
        simp [paste_from_slot, hnone, finalClipboard, applyPasteAction]

/-- Witness for C10: empty pre-paste clipboard — no restore write, and the
slot text stays on the clipboard. -/
theorem C10_witness :
    PasteAction.restoreWrite "x" ∉ paste_from_slot "hi" none true true ∧
    finalClipboard none (paste_from_slot "hi" none true true) = some "hi" :=
  ⟨((C10_paste_order_and_restore "hi" none true true).2.2 rfl).1 "x",
   ((C10_paste_order_and_restore "hi" none true true).2.2 rfl).2 rfl⟩

end SlotPaste
